import Mathlib

/-!
A shallow embedding of the pushnami-project services in Lean 4.

Two services are modelled:

* `ab-service` (`src/ab-service/app/main.py`, `models.py`): deterministic
  variant assignment.  The pure bucket function `_assign_variant` is embedded
  together with a full executable SHA-256 (the code calls `hashlib.sha256`),
  and the `assign` endpoint is embedded as a state-passing function over an
  explicit `Store`.
* `metrics-service` (`src/metrics-service/app/main.py`): event ingestion and
  the `get_stats` aggregation, embedded as pure functions over a list of
  stored events; the SQL aggregate queries are embedded by their relational
  semantics (filter / group / distinct-count).

Machine integers: Python integers are unbounded, so `Nat`/`Int` are used
directly; the 32-bit arithmetic inside SHA-256 is `Nat` with explicit
`% 2^32`.  Fallible code returns `Option`/`Except`.
-/

namespace Pushnami

/-! ## SHA-256 (executable, `Nat`-based)

Embeds `hashlib.sha256(...).hexdigest()` followed by `int(..., 16)`:
`sha256Nat` returns the 256-bit digest interpreted as a big-endian unsigned
integer. -/

/-- Reduce to a 32-bit word. -/
def wmod (x : Nat) : Nat := x % 4294967296

/-- 32-bit right rotation. -/
def rotr (n x : Nat) : Nat := wmod ((x >>> n) ||| (x <<< (32 - n)))

/-- 32-bit bitwise complement. -/
def bnot32 (x : Nat) : Nat := x ^^^ 4294967295

/-- SHA-256 `Ch` function. -/
def shaCh (x y z : Nat) : Nat := (x &&& y) ^^^ (bnot32 x &&& z)

/-- SHA-256 `Maj` function. -/
def shaMaj (x y z : Nat) : Nat := (x &&& y) ^^^ (x &&& z) ^^^ (y &&& z)

/-- SHA-256 big sigma 0. -/
def bsig0 (x : Nat) : Nat := rotr 2 x ^^^ rotr 13 x ^^^ rotr 22 x

/-- SHA-256 big sigma 1. -/
def bsig1 (x : Nat) : Nat := rotr 6 x ^^^ rotr 11 x ^^^ rotr 25 x

/-- SHA-256 small sigma 0. -/
def ssig0 (x : Nat) : Nat := rotr 7 x ^^^ rotr 18 x ^^^ (x >>> 3)

/-- SHA-256 small sigma 1. -/
def ssig1 (x : Nat) : Nat := rotr 17 x ^^^ rotr 19 x ^^^ (x >>> 10)

/-- The 64 SHA-256 round constants of FIPS 180-4, written in decimal. -/
def sha256K : List Nat :=
  [1116352408, 1899447441, 3049323471, 3921009573, 961987163, 1508970993,
   2453635748, 2870763221, 3624381080, 310598401, 607225278, 1426881987,
   1925078388, 2162078206, 2614888103, 3248222580, 3835390401, 4022224774,
   264347078, 604807628, 770255983, 1249150122, 1555081692, 1996064986,
   2554220882, 2821834349, 2952996808, 3210313671, 3336571891, 3584528711,
   113926993, 338241895, 666307205, 773529912, 1294757372, 1396182291,
   1695183700, 1986661051, 2177026350, 2456956037, 2730485921, 2820302411,
   3259730800, 3345764771, 3516065817, 3600352804, 4094571909, 275423344,
   430227734, 506948616, 659060556, 883997877, 958139571, 1322822218,
   1537002063, 1747873779, 1955562222, 2024104815, 2227730452, 2361852424,
   2428436474, 2756734187, 3204031479, 3329325298]

/-- The initial SHA-256 hash state of FIPS 180-4, written in decimal. -/
def sha256H0 : List Nat :=
  [1779033703, 3144134277, 1013904242, 2773480762,
   1359893119, 2600822924, 528734635, 1541459225]

/-- `k` bytes of `n`, big-endian (most significant byte first). -/
def beBytes : Nat → Nat → List Nat
  | 0, _ => []
  | k + 1, n => beBytes k (n / 256) ++ [n % 256]

/-- A big-endian byte list as an unsigned integer. -/
def beWord (bs : List Nat) : Nat := bs.foldl (fun a b => a * 256 + b) 0

/-- SHA-256 padding: append `0x80`, zero bytes, then the 64-bit big-endian
bit length, so the total length is a multiple of 64 bytes. -/
def padMessage (msg : List Nat) : List Nat :=
  let l := msg.length
  let z := (64 - ((l + 9) % 64)) % 64
  msg ++ [128] ++ List.replicate z 0 ++ beBytes 8 (8 * l)

/-- The 64-entry message schedule of one 64-byte block. -/
def schedule (block : List Nat) : Array Nat :=
  let w0 : Array Nat :=
    ((List.range 16).map (fun i => beWord ((block.drop (4 * i)).take 4))).toArray
  (List.range 48).foldl
    (fun w i =>
      let t := i + 16
      w.push (wmod (ssig1 (w.getD (t - 2) 0) + w.getD (t - 7) 0 +
                    ssig0 (w.getD (t - 15) 0) + w.getD (t - 16) 0)))
    w0

/-- One SHA-256 compression step: state `(a,b,c,d,e,f,g,h)` updated with a
round constant `k` and schedule word `w`. -/
def compressStep (st : Nat × Nat × Nat × Nat × Nat × Nat × Nat × Nat)
    (kw : Nat × Nat) : Nat × Nat × Nat × Nat × Nat × Nat × Nat × Nat :=
  let (a, b, c, d, e, f, g, h) := st
  let (k, w) := kw
  let t1 := wmod (h + bsig1 e + shaCh e f g + k + w)
  let t2 := wmod (bsig0 a + shaMaj a b c)
  (wmod (t1 + t2), a, b, c, wmod (d + t1), e, f, g)

/-- Compress one 64-byte block into the running 8-word hash state. -/
def compressBlock (hs : List Nat) (block : List Nat) : List Nat :=
  let ws := schedule block
  let init8 := (hs.getD 0 0, hs.getD 1 0, hs.getD 2 0, hs.getD 3 0,
                hs.getD 4 0, hs.getD 5 0, hs.getD 6 0, hs.getD 7 0)
  let fin8 := (sha256K.zip ws.toList).foldl compressStep init8
  let (a, b, c, d, e, f, g, h) := fin8
  [wmod (hs.getD 0 0 + a), wmod (hs.getD 1 0 + b), wmod (hs.getD 2 0 + c),
   wmod (hs.getD 3 0 + d), wmod (hs.getD 4 0 + e), wmod (hs.getD 5 0 + f),
   wmod (hs.getD 6 0 + g), wmod (hs.getD 7 0 + h)]

/-- The eight 32-bit words of the SHA-256 digest of a byte list. -/
def sha256Words (msg : List Nat) : List Nat :=
  let p := padMessage msg
  (List.range (p.length / 64)).foldl
    (fun hs i => compressBlock hs ((p.drop (64 * i)).take 64)) sha256H0

/-- The SHA-256 digest of a byte list as a big-endian unsigned integer —
the value of `int(hashlib.sha256(bs).hexdigest(), 16)`. -/
def sha256Nat (msg : List Nat) : Nat :=
  (sha256Words msg).foldl (fun a w => a * 4294967296 + w) 0

/-- The UTF-8 bytes of a string (`str.encode()` in Python). -/
def strBytes (s : String) : List Nat := s.toUTF8.toList.map UInt8.toNat

/-! ## The deterministic bucket function `_assign_variant`
(`src/ab-service/app/main.py`, lines 114-124). -/

/-- A Python `dict[str, int]` as an association list; a well-formed dict has
`Nodup` keys. -/
abbrev SplitMap := List (String × Int)

/-- `traffic_split.get(variant, 0)`. -/
def getSplit (ts : SplitMap) (v : String) : Int := (ts.lookup v).getD 0

/-- `hash_value = int(sha256(f"{visitor_id}:{experiment_id}").hexdigest(), 16) % 100`. -/
def hashValue (visitor_id experiment_id : String) : Nat :=
  sha256Nat (strBytes (visitor_id ++ ":" ++ experiment_id)) % 100

/-- The `for variant in variants` loop of `_assign_variant`: walk the
variants accumulating the traffic split into `cumulative`, returning the
first variant with `hash_value < cumulative`; `none` means the loop fell
through. -/
def bucketWalk (hash_value : Nat) (ts : SplitMap) : Int → List String → Option String
  | _, [] => none
  | cumulative, v :: rest =>
    let c := cumulative + getSplit ts v
    if (hash_value : Int) < c then some v else bucketWalk hash_value ts c rest

/-- The bucket walk plus the `return variants[-1]` fallback, parameterised by
the already-computed `hash_value`; `variants[-1]` on an empty list raises
`IndexError`, embedded as `none`. -/
def pickVariant (hash_value : Nat) (variants : List String) (ts : SplitMap) :
    Option String :=
  match bucketWalk hash_value ts 0 variants with
  | some v => some v
  | none => variants.getLast?

/-- `_assign_variant(visitor_id, experiment_id, variants, traffic_split)`. -/
def _assign_variant (visitor_id experiment_id : String) (variants : List String)
    (traffic_split : SplitMap) : Option String :=
  pickVariant (hashValue visitor_id experiment_id) variants traffic_split

/-- The running cumulative traffic-split totals along `variants`, starting
from `c`: entry `i` is `c` plus the split of the first `i+1` variants
(a variant missing from the split contributing 0). -/
def cumTotals (ts : SplitMap) (c : Int) : List String → List Int
  | [] => []
  | v :: rest => (c + getSplit ts v) :: cumTotals ts (c + getSplit ts v) rest

/-- The reference definition of C1, written from the spec's words: the first
variant in declared order whose cumulative traffic-split total strictly
exceeds `hash_value`, else the last variant in the list. -/
def specAssign (visitor_id experiment_id : String) (variants : List String)
    (ts : SplitMap) : Option String :=
  let hv := hashValue visitor_id experiment_id
  match (variants.zip (cumTotals ts 0 variants)).find?
      (fun p => (hv : Int) < p.2) with
  | some p => some p.1
  | none => variants.getLast?

/-- `set(xs) == set(ys)` for string lists, as a Boolean. -/
def sameSet (xs ys : List String) : Bool :=
  xs.all (fun x => ys.contains x) && ys.all (fun y => xs.contains y)

/-- `sum(ts.values())`. -/
def splitTotal (ts : SplitMap) : Int := (ts.map Prod.snd).sum

/-! ### Lemmas about the bucket walk -/

/-- The source's running-total loop agrees with a first-match search over the
list of cumulative totals. -/
theorem bucketWalk_eq_find (hv : Nat) (ts : SplitMap) :
    ∀ (vs : List String) (c : Int),
    bucketWalk hv ts c vs =
      ((vs.zip (cumTotals ts c vs)).find? (fun p => (hv : Int) < p.2)).map Prod.fst := by
  intro vs
  induction vs with
  | nil => intro c; simp [bucketWalk, cumTotals]
  | cons v rest ih =>
    intro c
    by_cases h : (hv : Int) < c + getSplit ts v
    · simp [bucketWalk, cumTotals, h]
    · simp [bucketWalk, cumTotals, h, ih]

/-- Whatever the walk returns is one of the walked variants. -/
theorem bucketWalk_mem (hv : Nat) (ts : SplitMap) :
    ∀ (vs : List String) (c : Int) (r : String),
    bucketWalk hv ts c vs = some r → r ∈ vs := by
  intro vs
  induction vs with
  | nil => intro c r h; simp [bucketWalk] at h
  | cons v rest ih =>
    intro c r h
    simp only [bucketWalk] at h
    by_cases hc : (hv : Int) < c + getSplit ts v
    · simp [hc] at h
      simp [h]
    · simp [hc] at h
      exact List.mem_cons_of_mem v (ih _ r h)

/-- If the cumulative total over the whole suffix strictly exceeds the hash
value, the walk cannot fall through (provided the hash has not already been
passed). -/
theorem bucketWalk_isSome_of_lt_sum (hv : Nat) (ts : SplitMap) :
    ∀ (vs : List String) (c : Int), c ≤ (hv : Int) →
    (hv : Int) < c + ((vs.map (getSplit ts)).sum) →
    (bucketWalk hv ts c vs).isSome := by
  intro vs
  induction vs with
  | nil => intro c hc hlt; simp at hlt; omega
  | cons v rest ih =>
    intro c hc hlt
    simp only [bucketWalk]
    by_cases h : (hv : Int) < c + getSplit ts v
    · simp [h]
    · simp only [h, if_false]
      apply ih (c + getSplit ts v) (by omega)
      simp only [List.map_cons, List.sum_cons] at hlt
      omega

/-- A variant whose traffic split is 0 is never returned by the early-return
branch of the walk. -/
theorem bucketWalk_ne_of_zero_split (hv : Nat) (ts : SplitMap) :
    ∀ (vs : List String) (c : Int), c ≤ (hv : Int) →
    ∀ r, bucketWalk hv ts c vs = some r → getSplit ts r = 0 → False := by
  intro vs
  induction vs with
  | nil => intro c _ r h; simp [bucketWalk] at h
  | cons v rest ih =>
    intro c hc r h hz
    simp only [bucketWalk] at h
    by_cases hlt : (hv : Int) < c + getSplit ts v
    · simp [hlt] at h
      subst h
      rw [hz] at hlt
      omega
    · simp [hlt] at h
      exact ih (c + getSplit ts v) (by omega) r h hz

/-- With `Nodup` keys, looking up each key of an association list gives back
its stored value. -/
theorem map_getSplit_keys (ts : SplitMap) (hk : (ts.map Prod.fst).Nodup) :
    (ts.map Prod.fst).map (getSplit ts) = ts.map Prod.snd := by
  induction ts with
  | nil => simp
  | cons kv rest ih =>
    simp only [List.map_cons, List.nodup_cons] at hk ⊢
    have h1 : getSplit (kv :: rest) kv.1 = kv.2 := by simp [getSplit, List.lookup]
    have h2 : (rest.map Prod.fst).map (getSplit (kv :: rest)) =
        (rest.map Prod.fst).map (getSplit rest) := by
      apply List.map_congr_left
      intro k hkmem
      have hne : k ≠ kv.1 := by
        intro hEq; exact hk.1 (hEq ▸ hkmem)
      have hb : (k == kv.1) = false := by simp [hne]
      simp [getSplit, List.lookup, hb]
    rw [h1, h2, ih hk.2]

/-- `sameSet xs ys = true` means the two lists have the same members. -/
theorem sameSet_mem_iff {xs ys : List String} (h : sameSet xs ys = true) :
    ∀ x, x ∈ xs ↔ x ∈ ys := by
  simp only [sameSet, Bool.and_eq_true, List.all_eq_true] at h
  intro x
  constructor
  · intro hx
    have := h.1 x hx
    simpa using this
  · intro hx
    have := h.2 x hx
    simpa using this

/-- C1: for every visitor_id, experiment_id, non-empty ordered variants list
and traffic_split mapping, `_assign_variant` returns the first variant in
declared order whose cumulative traffic-split total (missing variants
contributing 0) strictly exceeds `hash_value` — the SHA-256 digest of
`visitor_id ++ ":" ++ experiment_id` mod 100 — falling back to the last
variant when no cumulative total exceeds it; and the result is defined. -/
theorem C1_assign_variant_matches_reference (visitor_id experiment_id : String)
    (variants : List String) (ts : SplitMap) (hne : variants ≠ []) :
    _assign_variant visitor_id experiment_id variants ts =
      specAssign visitor_id experiment_id variants ts
    ∧ (_assign_variant visitor_id experiment_id variants ts).isSome := by
  have heq : _assign_variant visitor_id experiment_id variants ts =
      specAssign visitor_id experiment_id variants ts := by
    simp only [_assign_variant, pickVariant, specAssign, bucketWalk_eq_find]
    cases hf : (variants.zip (cumTotals ts 0 variants)).find?
        (fun p => ((hashValue visitor_id experiment_id : Int) < p.2)) with
    | none => simp
    | some p => simp
  refine ⟨heq, ?_⟩
  simp only [_assign_variant, pickVariant]
  cases hb : bucketWalk (hashValue visitor_id experiment_id) ts 0 variants with
  | some v => simp
  | none => simpa using List.getLast?_isSome.mpr hne

/-- C1 witness: the theorem applied at a concrete input. -/
theorem C1_witness :
    (["control", "variant"] : List String) ≠ [] ∧
    (_assign_variant "visitor1" "exp1" ["control", "variant"]
        [("control", 50), ("variant", 50)] =
      specAssign "visitor1" "exp1" ["control", "variant"]
        [("control", 50), ("variant", 50)]
    ∧ (_assign_variant "visitor1" "exp1" ["control", "variant"]
        [("control", 50), ("variant", 50)]).isSome) :=
  ⟨by decide,
   C1_assign_variant_matches_reference "visitor1" "exp1"
     ["control", "variant"] [("control", 50), ("variant", 50)] (by decide)⟩

/-- C2: when the traffic split's values sum to exactly 100 and its key set
equals the (duplicate-free) variant set, every hash value in [0, 99] is
caught by the bucket walk itself (the fallback is unreachable), and the
50/50 boundary example buckets hash 49 to "control" and hash 50 to
"variant". -/
theorem C2_full_coverage (variants : List String) (ts : SplitMap)
    (hvnd : variants.Nodup) (hknd : (ts.map Prod.fst).Nodup)
    (hset : sameSet (ts.map Prod.fst) variants = true)
    (hsum : splitTotal ts = 100) :
    (∀ hv : Nat, hv ≤ 99 →
      ∃ v, bucketWalk hv ts 0 variants = some v
        ∧ pickVariant hv variants ts = some v)
    ∧ pickVariant 49 ["control", "variant"]
        [("control", 50), ("variant", 50)] = some "control"
    ∧ pickVariant 50 ["control", "variant"]
        [("control", 50), ("variant", 50)] = some "variant" := by
  refine ⟨?_, by decide, by decide⟩
  intro hv hhv
  have hperm : variants.Perm (ts.map Prod.fst) :=
    List.perm_of_nodup_nodup_toFinset_eq hvnd hknd
      (by
        ext a
        simp only [List.mem_toFinset]
        exact (sameSet_mem_iff hset a).symm)
  have hsum' : (variants.map (getSplit ts)).sum = 100 := by
    have h1 : (variants.map (getSplit ts)).sum =
        ((ts.map Prod.fst).map (getSplit ts)).sum :=
      (hperm.map (getSplit ts)).sum_eq
    rw [h1, map_getSplit_keys ts hknd]
    exact hsum
  have hlt : (hv : Int) < 0 + (variants.map (getSplit ts)).sum := by
    rw [hsum']
    omega
  have hs := bucketWalk_isSome_of_lt_sum hv ts variants 0 (by omega) hlt
  rcases Option.isSome_iff_exists.mp hs with ⟨v, hvEq⟩
  exact ⟨v, hvEq, by simp [pickVariant, hvEq]⟩

/-- C2 witness: the theorem applied at the 50/50 example. -/
theorem C2_witness :
    (["control", "variant"] : List String).Nodup
    ∧ (([("control", (50 : Int)), ("variant", 50)] : SplitMap).map Prod.fst).Nodup
    ∧ sameSet (([("control", (50 : Int)), ("variant", 50)] : SplitMap).map Prod.fst)
        ["control", "variant"] = true
    ∧ splitTotal [("control", 50), ("variant", 50)] = 100
    ∧ ((∀ hv : Nat, hv ≤ 99 →
        ∃ v, bucketWalk hv [("control", 50), ("variant", 50)] 0
            ["control", "variant"] = some v
          ∧ pickVariant hv ["control", "variant"]
              [("control", 50), ("variant", 50)] = some v)
      ∧ pickVariant 49 ["control", "variant"]
          [("control", 50), ("variant", 50)] = some "control"
      ∧ pickVariant 50 ["control", "variant"]
          [("control", 50), ("variant", 50)] = some "variant") :=
  ⟨by decide, by decide, by decide, by decide,
   C2_full_coverage ["control", "variant"] [("control", 50), ("variant", 50)]
     (by decide) (by decide) (by decide) (by decide)⟩

/-- C10: on a non-empty variants list `_assign_variant` is total and returns
an element of the list; a variant absent from the traffic split contributes
0 to the cumulative total, and if the returned variant is absent from the
split it was produced by the fallback: the walk fell through and the result
is the last variant. -/
theorem C10_total_and_zero_split_fallback (visitor_id experiment_id : String)
    (variants : List String) (ts : SplitMap) (hne : variants ≠ []) :
    (∃ r, _assign_variant visitor_id experiment_id variants ts = some r
       ∧ r ∈ variants)
    ∧ (∀ v, ts.lookup v = none → getSplit ts v = 0)
    ∧ (∀ r, _assign_variant visitor_id experiment_id variants ts = some r →
        ts.lookup r = none →
        bucketWalk (hashValue visitor_id experiment_id) ts 0 variants = none
        ∧ variants.getLast? = some r) := by
  refine ⟨?_, ?_, ?_⟩
  · cases hb : bucketWalk (hashValue visitor_id experiment_id) ts 0 variants with
    | some v =>
      refine ⟨v, by simp [_assign_variant, pickVariant, hb], ?_⟩
      exact bucketWalk_mem _ ts variants 0 v hb
    | none =>
      rcases Option.isSome_iff_exists.mp (List.getLast?_isSome.mpr hne) with ⟨r, hr⟩
      exact ⟨r, by simp [_assign_variant, pickVariant, hb, hr],
        List.mem_of_mem_getLast? hr⟩
  · intro v h
    simp [getSplit, h]
  · intro r hr hnone
    have hz : getSplit ts r = 0 := by simp [getSplit, hnone]
    cases hb : bucketWalk (hashValue visitor_id experiment_id) ts 0 variants with
    | some v =>
      simp only [_assign_variant, pickVariant, hb, Option.some.injEq] at hr
      rw [hr] at hb
      exact absurd hz
        (fun hz0 => bucketWalk_ne_of_zero_split _ ts variants 0 (by omega) r hb hz0)
    | none =>
      simp [_assign_variant, pickVariant, hb] at hr
      exact ⟨rfl, hr⟩

/-- C10 witness: the theorem applied at a concrete input. -/
theorem C10_witness :
    (["control", "variant"] : List String) ≠ [] ∧
    ((∃ r, _assign_variant "v9" "e9" ["control", "variant"]
        [("control", 100)] = some r ∧ r ∈ ["control", "variant"])
    ∧ (∀ v, ([("control", (100 : Int))] : SplitMap).lookup v = none →
        getSplit [("control", 100)] v = 0)
    ∧ (∀ r, _assign_variant "v9" "e9" ["control", "variant"]
          [("control", 100)] = some r →
        ([("control", (100 : Int))] : SplitMap).lookup r = none →
        bucketWalk (hashValue "v9" "e9") [("control", 100)] 0
          ["control", "variant"] = none
        ∧ (["control", "variant"] : List String).getLast? = some r)) :=
  ⟨by decide,
   C10_total_and_zero_split_fallback "v9" "e9" ["control", "variant"]
     [("control", 100)] (by decide)⟩

/-! ## The ab-service store and endpoints
(`src/ab-service/app/main.py`, `src/ab-service/app/models.py`).

UUIDs are opaque strings; timestamps are omitted (no claim depends on them).
`models.py` declares the `assignments` table with **no** uniqueness
constraint on `(experiment_id, visitor_id)` — its only constraint is the
surrogate primary key — so inserting an assignment is an unconditional
append. -/

/-- A row of the `experiments` table. -/
structure Experiment where
  id : String
  name : String
  description : String
  variants : List String
  traffic_split : SplitMap
  is_active : Bool
  deriving DecidableEq, Repr

/-- A row of the `assignments` table (surrogate id and timestamp omitted).
`models.py` places no unique constraint on `(experiment_id, visitor_id)`. -/
structure Assignment where
  experiment_id : String
  visitor_id : String
  variant : String
  deriving DecidableEq, Repr

/-- The ab-service database state. -/
structure Store where
  experiments : List Experiment
  assignments : List Assignment
  deriving DecidableEq, Repr

/-- The `AssignmentResponse` schema. -/
structure AssignmentResponse where
  visitor_id : String
  experiment_id : String
  variant : String
  is_new : Bool
  deriving DecidableEq, Repr

/-- The error kinds raised by the handlers. -/
inductive ApiError where
  | notFound
  | inactiveExperiment
  | validationFailed
  | storeError
  deriving DecidableEq, Repr

deriving instance DecidableEq for Except

/-- SQLAlchemy's `scalar_one_or_none`: `none` on zero rows, the row on one,
an error (`MultipleResultsFound`) on more. -/
def scalarOneOrNone {α : Type} : List α → Except ApiError (Option α)
  | [] => .ok none
  | [x] => .ok (some x)
  | _ :: _ :: _ => .error .storeError

/-- `select(Experiment).where(Experiment.id == experiment_id)` then
`scalar_one_or_none`. -/
def findExperiment (st : Store) (experiment_id : String) :
    Except ApiError (Option Experiment) :=
  scalarOneOrNone (st.experiments.filter (fun x => x.id == experiment_id))

/-- `select(Assignment).where(experiment_id == ..., visitor_id == ...)` then
`scalar_one_or_none`. -/
def findAssignment (st : Store) (experiment_id visitor_id : String) :
    Except ApiError (Option Assignment) :=
  scalarOneOrNone (st.assignments.filter
    (fun a => a.experiment_id == experiment_id && a.visitor_id == visitor_id))

/-- The read half of the `assign` handler (main.py lines 133-148): look up
the experiment, require it active, and look up an existing assignment.  Each
`await db.execute` is a scheduling point, so under concurrency another
request may run between this phase and the insert phase. -/
def assignCheckPhase (st : Store) (visitor_id experiment_id : String) :
    Except ApiError (Experiment × Option Assignment) :=
  match findExperiment st experiment_id with
  | .error e => .error e
  | .ok none => .error .notFound
  | .ok (some ex) =>
    if !ex.is_active then .error .inactiveExperiment
    else
      match findAssignment st experiment_id visitor_id with
      | .error e => .error e
      | .ok existing => .ok (ex, existing)

/-- The write half of the `assign` handler (main.py lines 157-161): compute
the variant and insert the new row.  The insert is an unconditional append —
the schema has no uniqueness constraint to make it fail on a duplicate
`(experiment_id, visitor_id)` pair. -/
def assignInsertPhase (st : Store) (visitor_id experiment_id : String)
    (ex : Experiment) : Except ApiError (Store × AssignmentResponse) :=
  match _assign_variant visitor_id experiment_id ex.variants ex.traffic_split with
  | none => .error .storeError
  | some v =>
    .ok ({ st with assignments := st.assignments ++
            [{ experiment_id := experiment_id, visitor_id := visitor_id,
               variant := v }] },
         { visitor_id := visitor_id, experiment_id := experiment_id,
           variant := v, is_new := true })

/-- The `assign` endpoint (main.py lines 127-169) run to completion without
interleaving: check phase, answer from the existing row if found, otherwise
insert phase.  Errors roll the transaction back, leaving the store
unchanged. -/
def assign_variant_endpoint (st : Store) (visitor_id experiment_id : String) :
    Store × Except ApiError AssignmentResponse :=
  match assignCheckPhase st visitor_id experiment_id with
  | .error e => (st, .error e)
  | .ok (_, some existing) =>
    (st, .ok { visitor_id := visitor_id, experiment_id := experiment_id,
               variant := existing.variant, is_new := false })
  | .ok (ex, none) =>
    match assignInsertPhase st visitor_id experiment_id ex with
    | .error e => (st, .error e)
    | .ok (st', resp) => (st', .ok resp)

/-- The payload of `POST /api/experiments`. -/
structure ExperimentCreate where
  name : String
  description : String
  variants : List String
  traffic_split : SplitMap
  is_active : Bool
  deriving DecidableEq, Repr

/-- The payload of `PUT /api/experiments/{id}`; `none` is an omitted field
(pydantic `exclude_unset`). -/
structure ExperimentUpdate where
  name : Option String := none
  description : Option String := none
  variants : Option (List String) := none
  traffic_split : Option SplitMap := none
  is_active : Option Bool := none
  deriving DecidableEq, Repr

/-- The `create_experiment` handler (main.py lines 48-64); `newId` stands
for the generated uuid. -/
def create_experiment (st : Store) (newId : String) (payload : ExperimentCreate) :
    Store × Except ApiError Experiment :=
  if splitTotal payload.traffic_split ≠ 100 then (st, .error .validationFailed)
  else if !(sameSet (payload.traffic_split.map Prod.fst) payload.variants) then
    (st, .error .validationFailed)
  else
    let e : Experiment :=
      { id := newId, name := payload.name, description := payload.description,
        variants := payload.variants, traffic_split := payload.traffic_split,
        is_active := payload.is_active }
    ({ st with experiments := st.experiments ++ [e] }, .ok e)

/-- Apply the provided fields of an update to a row (the SQL `UPDATE ...
VALUES`). -/
def applyUpdate (e : Experiment) (u : ExperimentUpdate) : Experiment :=
  { e with
    name := u.name.getD e.name,
    description := u.description.getD e.description,
    variants := u.variants.getD e.variants,
    traffic_split := u.traffic_split.getD e.traffic_split,
    is_active := u.is_active.getD e.is_active }

/-- The `update_experiment` handler (main.py lines 76-98): key-set match is
checked only when **both** `variants` and `traffic_split` are in the
payload, and the sum is checked only when `traffic_split` is. -/
def update_experiment (st : Store) (experiment_id : String)
    (u : ExperimentUpdate) : Store × Except ApiError Experiment :=
  match findExperiment st experiment_id with
  | .error e => (st, .error e)
  | .ok none => (st, .error .notFound)
  | .ok (some _) =>
    if (match u.traffic_split, u.variants with
        | some ts, some vs => !(sameSet (ts.map Prod.fst) vs)
        | _, _ => false) then (st, .error .validationFailed)
    else if (match u.traffic_split with
        | some ts => splitTotal ts != 100
        | none => false) then (st, .error .validationFailed)
    else
      let st' : Store :=
        { st with experiments :=
            st.experiments.map (fun e => if e.id == experiment_id then applyUpdate e u else e) }
      match st'.experiments.filter (fun x => x.id == experiment_id) with
      | [e'] => (st', .ok e')
      | _ => (st', .error .storeError)

/-- The stored-experiment invariant the spec states: split keys equal the
variant set and the split values sum to 100. -/
def experimentValid (e : Experiment) : Bool :=
  sameSet (e.traffic_split.map Prod.fst) e.variants && (splitTotal e.traffic_split == 100)

/-- The number of assignment rows stored for one
`(experiment_id, visitor_id)` pair. -/
def pairCount (st : Store) (experiment_id visitor_id : String) : Nat :=
  (st.assignments.filter
    (fun a => a.experiment_id == experiment_id && a.visitor_id == visitor_id)).length

/-- On a non-empty variants list the bucket pick always returns a variant. -/
theorem pickVariant_isSome (hv : Nat) (vs : List String) (ts : SplitMap)
    (hne : vs ≠ []) : (pickVariant hv vs ts).isSome := by
  simp only [pickVariant]
  cases hb : bucketWalk hv ts 0 vs with
  | some v => simp
  | none => simpa using List.getLast?_isSome.mpr hne

/-- A concrete experiment used to instantiate hypothesised theorems. -/
def demoExperiment : Experiment :=
  { id := "e1", name := "exp", description := "",
    variants := ["control", "variant"],
    traffic_split := [("control", 50), ("variant", 50)], is_active := true }

/-- A concrete store holding `demoExperiment` and no assignments. -/
def demoStore : Store := { experiments := [demoExperiment], assignments := [] }

/-- C3: against an active, uniquely stored experiment, the first `assign`
call for a pair stores one row and answers `is_new = true`; an immediate
second call answers the same variant with `is_new = false` and leaves the
store unchanged; and in any store that holds a row for the pair, `assign`
returns that row's variant with `is_new = false` whatever the experiment's
current `variants`/`traffic_split` are. -/
theorem C3_idempotent_persistence (visitor_id experiment_id : String) :
    (∀ (st : Store) (ex : Experiment),
      st.experiments.filter (fun x => x.id == experiment_id) = [ex] →
      ex.is_active = true →
      st.assignments.filter (fun a =>
        a.experiment_id == experiment_id && a.visitor_id == visitor_id) = [] →
      ex.variants ≠ [] →
      ∃ v st',
        assign_variant_endpoint st visitor_id experiment_id =
          (st', .ok { visitor_id := visitor_id, experiment_id := experiment_id,
                      variant := v, is_new := true })
        ∧ st'.experiments = st.experiments
        ∧ st'.assignments = st.assignments ++
            [{ experiment_id := experiment_id, visitor_id := visitor_id, variant := v }]
        ∧ assign_variant_endpoint st' visitor_id experiment_id =
            (st', .ok { visitor_id := visitor_id, experiment_id := experiment_id,
                        variant := v, is_new := false }))
    ∧ (∀ (st2 : Store) (ex2 : Experiment) (row : Assignment),
      st2.experiments.filter (fun x => x.id == experiment_id) = [ex2] →
      ex2.is_active = true →
      st2.assignments.filter (fun a =>
        a.experiment_id == experiment_id && a.visitor_id == visitor_id) = [row] →
      assign_variant_endpoint st2 visitor_id experiment_id =
        (st2, .ok { visitor_id := visitor_id, experiment_id := experiment_id,
                    variant := row.variant, is_new := false })) := by
  constructor
  · intro st ex hexp hact hnone hvne
    rcases Option.isSome_iff_exists.mp
      (pickVariant_isSome (hashValue visitor_id experiment_id)
        ex.variants ex.traffic_split hvne) with ⟨v, hv⟩
    refine ⟨v, { st with assignments := st.assignments ++
      [{ experiment_id := experiment_id, visitor_id := visitor_id, variant := v }] },
      ?_, rfl, rfl, ?_⟩
    · simp [assign_variant_endpoint, assignCheckPhase, findExperiment,
        findAssignment, hexp, hnone, scalarOneOrNone, hact,
        assignInsertPhase, _assign_variant, hv]
    · simp [assign_variant_endpoint, assignCheckPhase, findExperiment,
        findAssignment, hexp, scalarOneOrNone, hact, List.filter_append, hnone]
  · intro st2 ex2 row hexp hact hrow
    simp [assign_variant_endpoint, assignCheckPhase, findExperiment,
      findAssignment, hexp, hrow, scalarOneOrNone, hact]

/-- C3 witness: the theorem applied to the demo store. -/
theorem C3_witness :
    (demoStore.experiments.filter (fun x => x.id == "e1") = [demoExperiment]
    ∧ demoExperiment.is_active = true
    ∧ demoStore.assignments.filter (fun a =>
        a.experiment_id == "e1" && a.visitor_id == "v1") = []
    ∧ demoExperiment.variants ≠ []
    ∧ ∃ v st',
        assign_variant_endpoint demoStore "v1" "e1" =
          (st', .ok { visitor_id := "v1", experiment_id := "e1",
                      variant := v, is_new := true })
        ∧ st'.experiments = demoStore.experiments
        ∧ st'.assignments = demoStore.assignments ++
            [{ experiment_id := "e1", visitor_id := "v1", variant := v }]
        ∧ assign_variant_endpoint st' "v1" "e1" =
            (st', .ok { visitor_id := "v1", experiment_id := "e1",
                        variant := v, is_new := false })) :=
  ⟨by decide, by decide, by decide, by decide,
   (C3_idempotent_persistence "v1" "e1").1 demoStore demoExperiment
     (by decide) (by decide) (by decide) (by decide)⟩

/-- C6: when no experiment has the requested id, `assign` fails with
NotFound; when the uniquely stored experiment is inactive, it fails with
InactiveExperiment; in both cases the store is returned unchanged (no
assignment row is created). -/
theorem C6_not_found_and_inactive (st : Store) (visitor_id experiment_id : String) :
    ((∀ ex ∈ st.experiments, ex.id ≠ experiment_id) →
      assign_variant_endpoint st visitor_id experiment_id = (st, .error .notFound))
    ∧ (∀ ex, st.experiments.filter (fun x => x.id == experiment_id) = [ex] →
        ex.is_active = false →
        assign_variant_endpoint st visitor_id experiment_id =
          (st, .error .inactiveExperiment)) := by
  constructor
  · intro h
    have hf : st.experiments.filter (fun x => x.id == experiment_id) = [] := by
      rw [List.filter_eq_nil_iff]
      intro a ha
      simp [h a ha]
    simp [assign_variant_endpoint, assignCheckPhase, findExperiment, hf,
      scalarOneOrNone]
  · intro ex hf hact
    simp [assign_variant_endpoint, assignCheckPhase, findExperiment, hf,
      scalarOneOrNone, hact]

/-- `demoExperiment` with its `is_active` flag cleared. -/
def demoInactive : Experiment := { demoExperiment with is_active := false }

/-- C6 witness: the theorem applied to an empty store and to a store holding
only an inactive experiment. -/
theorem C6_witness :
    ((∀ ex ∈ (Store.mk [] []).experiments, ex.id ≠ "missing")
      ∧ assign_variant_endpoint (Store.mk [] []) "v1" "missing" =
          (Store.mk [] [], .error .notFound))
    ∧ ((Store.mk [demoInactive] []).experiments.filter
          (fun x => x.id == "e1") = [demoInactive]
      ∧ demoInactive.is_active = false
      ∧ assign_variant_endpoint (Store.mk [demoInactive] []) "v1" "e1" =
          (Store.mk [demoInactive] [], .error .inactiveExperiment)) :=
  ⟨⟨by decide,
    (C6_not_found_and_inactive (Store.mk [] []) "v1" "missing").1 (by decide)⟩,
   ⟨by decide, by decide,
    (C6_not_found_and_inactive (Store.mk [demoInactive] []) "v1" "e1").2
      demoInactive (by decide) (by decide)⟩⟩

/-- C4: the code has no uniqueness constraint and no conflict recovery, so
two requests that both pass the check phase before either insert commits
append two rows for the same `(experiment_id, visitor_id)` pair — the
claimed at-most-one-row invariant is violated by this reachable
interleaving of the handler's own phases. -/
theorem C4_race_inserts_duplicate_rows (st : Store) (visitor_id experiment_id : String)
    (ex : Experiment)
    (hchk : assignCheckPhase st visitor_id experiment_id = .ok (ex, none))
    (hvne : ex.variants ≠ []) :
    ∃ stA rA stB rB,
      assignInsertPhase st visitor_id experiment_id ex = .ok (stA, rA)
      ∧ assignInsertPhase stA visitor_id experiment_id ex = .ok (stB, rB)
      ∧ pairCount stB experiment_id visitor_id =
          pairCount st experiment_id visitor_id + 2 := by
  rcases Option.isSome_iff_exists.mp
    (pickVariant_isSome (hashValue visitor_id experiment_id)
      ex.variants ex.traffic_split hvne) with ⟨v, hv⟩
  refine ⟨{ st with assignments := st.assignments ++
      [{ experiment_id := experiment_id, visitor_id := visitor_id, variant := v }] },
    { visitor_id := visitor_id, experiment_id := experiment_id,
      variant := v, is_new := true },
    { st with assignments := (st.assignments ++
        [{ experiment_id := experiment_id, visitor_id := visitor_id, variant := v }]) ++
      [{ experiment_id := experiment_id, visitor_id := visitor_id, variant := v }] },
    { visitor_id := visitor_id, experiment_id := experiment_id,
      variant := v, is_new := true }, ?_, ?_, ?_⟩
  · simp [assignInsertPhase, _assign_variant, hv]
  · simp [assignInsertPhase, _assign_variant, hv]
  · simp [pairCount, List.filter_append]

/-- C4 witness: the race theorem applied to the demo store. -/
theorem C4_witness :
    (assignCheckPhase demoStore "v1" "e1" = .ok (demoExperiment, none)
    ∧ demoExperiment.variants ≠ []
    ∧ ∃ stA rA stB rB,
        assignInsertPhase demoStore "v1" "e1" demoExperiment = .ok (stA, rA)
        ∧ assignInsertPhase stA "v1" "e1" demoExperiment = .ok (stB, rB)
        ∧ pairCount stB "e1" "v1" = pairCount demoStore "e1" "v1" + 2) :=
  ⟨by decide, by decide,
   C4_race_inserts_duplicate_rows demoStore "v1" "e1" demoExperiment
     (by decide) (by decide)⟩

/-- An empty ab-service store. -/
def emptyStore : Store := { experiments := [], assignments := [] }

/-- The valid stored experiment of the C5 failing input: variants
`["a","b"]` with split `{"a": 50, "b": 50}`. -/
def c5Before : Experiment :=
  { id := "e1", name := "exp", description := "", variants := ["a", "b"],
    traffic_split := [("a", 50), ("b", 50)], is_active := true }

/-- `c5Before` after the variants-only update: its variants become
`["x","y"]` while its stored traffic split still has keys `{"a","b"}`. -/
def c5After : Experiment := { c5Before with variants := ["x", "y"] }

/-- The spec's first rejected creation payload: keys mismatch, sum 100. -/
def c5BadKeys : ExperimentCreate :=
  { name := "n", description := "", variants := ["a", "b", "c"],
    traffic_split := [("a", 50), ("b", 50)], is_active := true }

/-- The spec's second rejected creation payload: sum 90. -/
def c5BadSum : ExperimentCreate :=
  { name := "n", description := "", variants := ["a", "b", "c"],
    traffic_split := [("a", 40), ("b", 40), ("c", 10)], is_active := true }

/-- C5: creation does validate both halves of the invariant before any
write (the spec's two rejected payloads evaluate to ValidationFailed with
the store unchanged), but update does **not** re-validate whenever either
field changes: updating only `variants` (or only `traffic_split`) succeeds
and stores an experiment whose split keys no longer match its variants. -/
theorem C5_update_skips_revalidation :
    create_experiment emptyStore "id1" c5BadKeys =
      (emptyStore, .error .validationFailed)
    ∧ create_experiment emptyStore "id1" c5BadSum =
      (emptyStore, .error .validationFailed)
    ∧ experimentValid c5Before = true
    ∧ update_experiment (Store.mk [c5Before] []) "e1"
        { variants := some ["x", "y"] } =
      (Store.mk [c5After] [], .ok c5After)
    ∧ experimentValid c5After = false
    ∧ (update_experiment (Store.mk [c5Before] []) "e1"
        { traffic_split := some [("x", 100)] }).1.experiments.all
          experimentValid = false := by
  decide

/-! ## The metrics-service store and statistics
(`src/metrics-service/app/main.py`, `src/metrics-service/app/models.py`).

Events are modelled as a list of rows; timestamps are integers (seconds,
UTC).  The free-form JSONB `metadata` column carries no structure any claim
depends on and is omitted.  The SQL aggregate queries are embedded by their
relational semantics: `WHERE` is `filter`, `GROUP BY` is `dedup` over the
grouping key, `count(*)` is a filtered `length`, `count(distinct ...)` is a
`dedup.length`, `ORDER BY` is a merge sort. -/

/-- A row of the `events` table (surrogate id and `metadata` omitted). -/
structure Event where
  visitor_id : String
  experiment_id : Option String
  variant : Option String
  event_type : String
  event_name : Option String
  page_url : Option String
  user_agent : Option String
  created_at : Int
  deriving DecidableEq, Repr

/-- The `EventCreate` payload (everything but the server-set timestamp). -/
structure EventCreate where
  visitor_id : String
  experiment_id : Option String
  variant : Option String
  event_type : String
  event_name : Option String
  page_url : Option String
  user_agent : Option String
  deriving DecidableEq, Repr

/-- Build the stored row from a payload; `created_at` defaults to the
current server time. -/
def toEvent (now : Int) (p : EventCreate) : Event :=
  { visitor_id := p.visitor_id, experiment_id := p.experiment_id,
    variant := p.variant, event_type := p.event_type,
    event_name := p.event_name, page_url := p.page_url,
    user_agent := p.user_agent, created_at := now }

/-- A database session of the metrics service: committed rows plus the rows
staged by `db.add_all` and not yet committed. -/
structure Session where
  stored : List Event
  pending : List Event
  deriving DecidableEq, Repr

/-- `db.add_all(events)`: stage rows in the session. -/
def dbAddAll (s : Session) (evs : List Event) : Session :=
  { s with pending := s.pending ++ evs }

/-- `await db.commit()`: the transaction either commits every staged row
atomically or fails and rolls all of them back; `commitOk` is the store's
verdict. -/
def dbCommit (s : Session) (commitOk : Bool) : Session × Bool :=
  if commitOk then ({ stored := s.stored ++ s.pending, pending := [] }, true)
  else ({ s with pending := [] }, false)

/-- The `create_events_batch` handler (metrics main.py lines 44-50): map the
payloads to rows, `add_all`, commit, and answer `{"created": len(events)}`. -/
def create_events_batch (s : Session) (payloads : List EventCreate)
    (now : Int) (commitOk : Bool) : Session × Except ApiError Nat :=
  let events := payloads.map (toEvent now)
  let s1 := dbAddAll s events
  let (s2, ok) := dbCommit s1 commitOk
  if ok then (s2, .ok payloads.length) else (s2, .error .storeError)

/-- The optional experiment filter every stat except the timeline applies
(`base_filter` in `get_stats`). -/
def baseFilter (expFilter : Option String) (e : Event) : Bool :=
  match expFilter with
  | some eid => e.experiment_id == some eid
  | none => true

/-- `count(distinct visitor_id)` over a set of rows. -/
def distinctVisitors (evs : List Event) : Nat :=
  ((evs.map (fun e => e.visitor_id)).dedup).length

/-- The group keys of the `events_by_variant` query: the distinct non-null
variants among the matching events. -/
def variantKeys (evs : List Event) (expFilter : Option String) : List String :=
  ((evs.filter (baseFilter expFilter)).filterMap (fun e => e.variant)).dedup

/-- `events_by_variant`: variant → count over matching events with a
non-null variant. -/
def eventsByVariant (evs : List Event) (expFilter : Option String) :
    List (String × Nat) :=
  (variantKeys evs expFilter).map (fun v =>
    (v, (evs.filter (fun e => baseFilter expFilter e && e.variant == some v)).length))

/-- Python's `round` ties-to-even on the integers. -/
def roundHalfEven (q : ℚ) : ℤ :=
  let f := ⌊q⌋
  if q - f < 1/2 then f
  else if (1:ℚ)/2 < q - f then f + 1
  else if f % 2 = 0 then f else f + 1

/-- `round(x, 1)`: round to one decimal place, ties to even. -/
def round1 (q : ℚ) : ℚ := (roundHalfEven (q * 10) : ℚ) / 10

/-- One entry of `conversion_by_variant`. -/
structure Conversion where
  views : Nat
  clicks : Nat
  submissions : Nat
  click_rate : ℚ
  submit_rate : ℚ
  deriving DecidableEq, Repr

/-- The per-variant conversion computation of `get_stats` (metrics main.py
lines 119-150): three `count(distinct visitor_id)` queries filtered by
`variant == v`, the base filter and one event type each, with the rates
guarded by `if views`. -/
def conversionFor (evs : List Event) (expFilter : Option String) (v : String) :
    Conversion :=
  let vf := fun e => (e.variant == some v) && baseFilter expFilter e
  let views := distinctVisitors (evs.filter
    (fun e => vf e && (e.event_type == "page_view")))
  let clicks := distinctVisitors (evs.filter
    (fun e => vf e && (e.event_type == "click")))
  let submits := distinctVisitors (evs.filter
    (fun e => vf e && (e.event_type == "form_submit")))
  { views := views, clicks := clicks, submissions := submits,
    click_rate := if views ≠ 0 then round1 ((clicks : ℚ) / (views : ℚ) * 100) else 0,
    submit_rate := if views ≠ 0 then round1 ((submits : ℚ) / (views : ℚ) * 100) else 0 }

/-- `conversion_by_variant`: one entry per key of `events_by_variant`. -/
def conversionByVariant (evs : List Event) (expFilter : Option String) :
    List (String × Conversion) :=
  (variantKeys evs expFilter).map (fun v => (v, conversionFor evs expFilter v))

/-- The reference conversion entry of C7, written from the spec's words:
distinct-visitor counts among matching events of that variant with each of
the three event types, rates `round(count/views*100, 1)` and 0 whenever
`views = 0`. -/
def specConversion (evs : List Event) (expFilter : Option String) (v : String) :
    Conversion :=
  let matching := evs.filter (baseFilter expFilter)
  let views := distinctVisitors (matching.filter
    (fun e => e.variant == some v && e.event_type == "page_view"))
  let clicks := distinctVisitors (matching.filter
    (fun e => e.variant == some v && e.event_type == "click"))
  let submits := distinctVisitors (matching.filter
    (fun e => e.variant == some v && e.event_type == "form_submit"))
  { views := views, clicks := clicks, submissions := submits,
    click_rate := if views = 0 then 0 else round1 ((clicks : ℚ) / (views : ℚ) * 100),
    submit_rate := if views = 0 then 0 else round1 ((submits : ℚ) / (views : ℚ) * 100) }

/-- `date_trunc('hour', created_at)` on integer timestamps. -/
def truncHour (t : Int) : Int := (Int.fdiv t 3600) * 3600

/-- `created_at > NOW() - INTERVAL '24 hours'`. -/
def inWindow (now : Int) (e : Event) : Bool := now - 86400 < e.created_at

/-- The timeline grouping key: (truncated hour, variant, event_type). -/
def timelineKey (e : Event) : Int × Option String × String :=
  (truncHour e.created_at, e.variant, e.event_type)

/-- One row of the timeline result. -/
structure TimelineRow where
  hour : Int
  variant : Option String
  event_type : String
  count : Nat
  deriving DecidableEq, Repr

/-- The raw timeline query of `get_stats` (metrics main.py lines 152-168):
all events of the trailing 24 hours — no experiment filter — grouped by
(hour, variant, event_type) and ordered by hour ascending. -/
def timelineRows (evs : List Event) (now : Int) : List TimelineRow :=
  let windowed := evs.filter (inWindow now)
  let keys := (windowed.map timelineKey).dedup
  let rows := keys.map (fun k =>
    { hour := k.1, variant := k.2.1, event_type := k.2.2,
      count := (windowed.filter (fun e => timelineKey e == k)).length })
  rows.mergeSort (fun a b => a.hour ≤ b.hour)

/-- The `StatsResponse` payload. -/
structure StatsResponse where
  total_events : Nat
  unique_visitors : Nat
  events_by_type : List (String × Nat)
  events_by_variant : List (String × Nat)
  variant_breakdown : List (Option String × String × Nat)
  conversion_by_variant : List (String × Conversion)
  timeline : List TimelineRow

/-- The `get_stats` handler (metrics main.py lines 75-178) over stored
events, an optional experiment filter and the current time. -/
def get_stats (evs : List Event) (expFilter : Option String) (now : Int) :
    StatsResponse :=
  let matching := evs.filter (baseFilter expFilter)
  { total_events := matching.length,
    unique_visitors := distinctVisitors matching,
    events_by_type :=
      ((matching.map (fun e => e.event_type)).dedup).map (fun t =>
        (t, (matching.filter (fun e => e.event_type == t)).length)),
    events_by_variant := eventsByVariant evs expFilter,
    variant_breakdown :=
      (((matching.filter (fun e => e.variant.isSome)).map
          (fun e => (e.variant, e.event_type))).dedup).map (fun k =>
        (k.1, k.2, (matching.filter
          (fun e => e.variant == k.1 && e.event_type == k.2)).length)),
    conversion_by_variant := conversionByVariant evs expFilter,
    timeline := timelineRows evs now }

/-! ### Lemmas about the statistics -/

/-- Looking up a key of a `keys.map (fun k => (k, g k))` table built over
`Nodup` keys yields `g` at that key. -/
theorem lookup_map_over_keys {β : Type} (g : String → β) :
    ∀ (keys : List String), keys.Nodup → ∀ v ∈ keys,
      (keys.map (fun k => (k, g k))).lookup v = some (g v) := by
  intro keys
  induction keys with
  | nil => simp
  | cons k rest ih =>
    intro hnd v hv
    by_cases hvk : v = k
    · subst hvk
      simp [List.lookup]
    · have hb : (v == k) = false := by simp [hvk]
      have hvr : v ∈ rest := by
        rcases List.mem_cons.mp hv with h | h
        · exact absurd h hvk
        · exact h
      simp only [List.map_cons, List.lookup, hb]
      exact ih (List.nodup_cons.mp hnd).2 v hvr

/-- The two filter shapes of the conversion counts agree: filtering by
(variant ∧ base-filter) then event type equals filtering the matching
events by (variant ∧ event type). -/
theorem conversion_filter_eq (evs : List Event) (f : Option String)
    (v : String) (t : String) :
    evs.filter (fun e => ((e.variant == some v) && baseFilter f e)
        && (e.event_type == t)) =
      (evs.filter (baseFilter f)).filter
        (fun e => e.variant == some v && e.event_type == t) := by
  rw [List.filter_filter]
  apply List.filter_congr
  intro e _
  cases e.variant == some v <;> cases baseFilter f e <;> cases e.event_type == t
    <;> rfl

/-- The code's per-variant conversion entry equals the spec's. -/
theorem conversionFor_eq_spec (evs : List Event) (f : Option String)
    (v : String) : conversionFor evs f v = specConversion evs f v := by
  simp only [conversionFor, specConversion, conversion_filter_eq]
  by_cases h0 : distinctVisitors ((evs.filter (baseFilter f)).filter
      (fun e => e.variant == some v && e.event_type == "page_view")) = 0
  · simp [h0]
  · simp [h0]

/-- C7: `conversion_by_variant` has exactly one entry per key of
`events_by_variant`, and that entry is the spec's: distinct-visitor views,
clicks and submissions of the variant among the matching events, with
`round(count/views*100, 1)` rates that are 0 whenever views = 0. -/
theorem C7_conversion_by_variant_correct (evs : List Event)
    (expFilter : Option String) :
    ((conversionByVariant evs expFilter).map Prod.fst = variantKeys evs expFilter)
    ∧ ∀ v ∈ variantKeys evs expFilter,
      (conversionByVariant evs expFilter).lookup v =
        some (specConversion evs expFilter v) := by
  constructor
  · rw [conversionByVariant, List.map_map]
    have hc : (Prod.fst ∘ fun v => (v, conversionFor evs expFilter v)) =
        fun v : String => v := rfl
    rw [hc, List.map_id']
  · intro v hv
    have hnd : (variantKeys evs expFilter).Nodup := by
      rw [variantKeys]
      exact List.nodup_dedup _
    rw [conversionByVariant, lookup_map_over_keys _ _ hnd v hv,
      conversionFor_eq_spec]

/-- A one-event fixture for the C7 witness. -/
def c7Event : Event :=
  { visitor_id := "v1", experiment_id := some "e1", variant := some "A",
    event_type := "page_view", event_name := none, page_url := none,
    user_agent := none, created_at := 1000 }

/-- C7 witness: the theorem applied at a concrete event list and variant. -/
theorem C7_witness :
    ("A" ∈ variantKeys [c7Event] none)
    ∧ (conversionByVariant [c7Event] none).lookup "A" =
        some (specConversion [c7Event] none "A") :=
  ⟨by decide, (C7_conversion_by_variant_correct [c7Event] none).2 "A" (by decide)⟩

/-- C8: the timeline of `get_stats` ignores the experiment filter, is
ordered by ascending hour, and its rows are exactly the
(hour, variant, event_type) groups of the events created within the
trailing 24 hours, each counting the events of its group. -/
theorem C8_timeline_window_ignores_filter (evs : List Event)
    (expFilter : Option String) (now : Int) :
    (get_stats evs expFilter now).timeline = (get_stats evs none now).timeline
    ∧ ((get_stats evs expFilter now).timeline).Pairwise
        (fun a b => a.hour ≤ b.hour)
    ∧ (∀ r ∈ (get_stats evs expFilter now).timeline,
        r.count = ((evs.filter (inWindow now)).filter
          (fun e => timelineKey e == (r.hour, r.variant, r.event_type))).length
        ∧ ∃ e ∈ evs, inWindow now e = true
            ∧ timelineKey e = (r.hour, r.variant, r.event_type))
    ∧ (∀ e ∈ evs, inWindow now e = true →
        ∃ r ∈ (get_stats evs expFilter now).timeline,
          timelineKey e = (r.hour, r.variant, r.event_type)) := by
  have hT : (get_stats evs expFilter now).timeline = timelineRows evs now := rfl
  refine ⟨rfl, ?_, ?_, ?_⟩
  · rw [hT]
    simp only [timelineRows]
    exact List.Pairwise.imp (fun h => by simpa using of_decide_eq_true h)
      (List.sorted_mergeSort
        (by intro a b c hab hbc; simp only [decide_eq_true_eq] at *; omega)
        (by intro a b; simp only [Bool.or_eq_true, decide_eq_true_eq]; omega) _)
  · intro r hr
    rw [hT] at hr
    simp only [timelineRows] at hr
    rw [List.mem_mergeSort] at hr
    rcases List.mem_map.mp hr with ⟨k, hk, hrk⟩
    subst hrk
    refine ⟨rfl, ?_⟩
    rcases List.mem_map.mp (List.mem_dedup.mp hk) with ⟨e, heW, hek⟩
    rcases List.mem_filter.mp heW with ⟨he, hwin⟩
    exact ⟨e, he, hwin, by rw [hek]⟩
  · intro e he hw
    refine ⟨⟨(timelineKey e).1, (timelineKey e).2.1, (timelineKey e).2.2,
      ((evs.filter (inWindow now)).filter
        (fun x => timelineKey x == timelineKey e)).length⟩, ?_, rfl⟩
    rw [hT]
    simp only [timelineRows]
    rw [List.mem_mergeSort]
    apply List.mem_map.mpr
    refine ⟨timelineKey e, ?_, rfl⟩
    exact List.mem_dedup.mpr
      (List.mem_map_of_mem _ (List.mem_filter.mpr ⟨he, hw⟩))

/-- C8 witness: the theorem applied at a concrete store, filter and time. -/
theorem C8_witness :
    (get_stats [c7Event] (some "other") 1000).timeline =
      (get_stats [c7Event] none 1000).timeline
    ∧ ((get_stats [c7Event] (some "other") 1000).timeline).Pairwise
        (fun a b => a.hour ≤ b.hour)
    ∧ (∀ r ∈ (get_stats [c7Event] (some "other") 1000).timeline,
        r.count = (([c7Event].filter (inWindow 1000)).filter
          (fun e => timelineKey e == (r.hour, r.variant, r.event_type))).length
        ∧ ∃ e ∈ [c7Event], inWindow 1000 e = true
            ∧ timelineKey e = (r.hour, r.variant, r.event_type))
    ∧ (∀ e ∈ [c7Event], inWindow 1000 e = true →
        ∃ r ∈ (get_stats [c7Event] (some "other") 1000).timeline,
          timelineKey e = (r.hour, r.variant, r.event_type)) :=
  C8_timeline_window_ignores_filter [c7Event] (some "other") 1000

/-- C9: a batch record call commits every payload row or none: on commit
the stored list grows by exactly the mapped payload rows and the reported
count equals both the number of rows written and the input length; on a
failed commit the stored rows are unchanged and an error is reported. -/
theorem C9_batch_all_or_nothing (s : Session) (payloads : List EventCreate)
    (now : Int) (commitOk : Bool) (hp : s.pending = []) :
    ((create_events_batch s payloads now commitOk).1.pending = [])
    ∧ (commitOk = true →
        (create_events_batch s payloads now commitOk).1.stored =
          s.stored ++ payloads.map (toEvent now)
        ∧ (create_events_batch s payloads now commitOk).2 = .ok payloads.length
        ∧ (create_events_batch s payloads now commitOk).1.stored.length =
            s.stored.length + payloads.length)
    ∧ (commitOk = false →
        (create_events_batch s payloads now commitOk).1.stored = s.stored
        ∧ (create_events_batch s payloads now commitOk).2 =
            .error .storeError) := by
  cases commitOk <;> simp [create_events_batch, dbAddAll, dbCommit, hp]

/-- A one-payload fixture for the C9 witness. -/
def c9Payload : EventCreate :=
  { visitor_id := "v1", experiment_id := some "e1", variant := some "A",
    event_type := "click", event_name := none, page_url := none,
    user_agent := none }

/-- C9 witness: the theorem applied at a fresh session and one payload. -/
theorem C9_witness :
    (Session.mk [] []).pending = []
    ∧ (((create_events_batch (Session.mk [] []) [c9Payload] 5 true).1.pending = [])
      ∧ (true = true →
          (create_events_batch (Session.mk [] []) [c9Payload] 5 true).1.stored =
            [] ++ [c9Payload].map (toEvent 5)
          ∧ (create_events_batch (Session.mk [] []) [c9Payload] 5 true).2 =
              .ok ([c9Payload] : List EventCreate).length
          ∧ (create_events_batch (Session.mk [] []) [c9Payload] 5 true).1.stored.length =
              ([] : List Event).length + ([c9Payload] : List EventCreate).length)
      ∧ (true = false →
          (create_events_batch (Session.mk [] []) [c9Payload] 5 true).1.stored = []
          ∧ (create_events_batch (Session.mk [] []) [c9Payload] 5 true).2 =
              .error .storeError)) :=
  ⟨rfl, C9_batch_all_or_nothing (Session.mk [] []) [c9Payload] 5 true rfl⟩

end Pushnami
